import Mathlib

/-! Shallow embedding of the opi_tunnel relay.

The repository contains two iterations of one Node.js relay server:

* `src/server.js` — the path-addressed variant: tunnels are registered on the
  first `register` frame of a WebSocket connection and public requests are
  routed by the URL shape `/t/<tunnel-id>/<rest>`.
* `src/unnamed/part_000` — the earlier subdomain-addressed variant: a registry
  entry is created on connect (keyed by a fresh uuid) and public requests are
  routed by the first label of the Host header, matched against a per-tunnel
  `subdomain` alias.

Both are embedded below.  The JS `Map` of tunnels is modelled as an
association list preserving insertion order (JS `Map.set` replaces in place,
inserts append).  Event handlers become pure transition functions from state
to state plus a list of externally visible effects (frames sent on a
WebSocket, HTTP responses completed, timers started).  `Date.now()` values,
generated uuids, socket ready states and the success of a socket write are
passed in as parameters, since they come from the outside world.
Console logging is elided: it is not part of the protocol surface. -/

namespace OpiTunnel

/-- JS WebSocket readyState values. -/
inductive RState
  | CONNECTING
  | OPEN
  | CLOSING
  | CLOSED
deriving DecidableEq, Repr

/-- Lookup in the association-list model of a JS Map. -/
def mapGet {α : Type} : List (String × α) → String → Option α
  | [], _ => none
  | (k, v) :: rest, k' => if k = k' then some v else mapGet rest k'

/-- JS `Map.set`: replaces an existing key in place, appends a fresh key. -/
def mapSet {α : Type} : List (String × α) → String → α → List (String × α)
  | [], k, v => [(k, v)]
  | (k', v') :: rest, k, v =>
      if k' = k then (k, v) :: rest else (k', v') :: mapSet rest k v

/-- JS `Map.delete`. -/
def mapDelete {α : Type} (m : List (String × α)) (k : String) : List (String × α) :=
  m.filter (fun p => p.1 ≠ k)

/-- JS `Map.has`. -/
def mapHas {α : Type} (m : List (String × α)) (k : String) : Bool :=
  (mapGet m k).isSome

/-- Digit alphabet of JS `Number.prototype.toString(36)`: 0-9 then a-z. -/
def base36Digit (n : Nat) : Char :=
  if n < 10 then Char.ofNat (48 + n) else Char.ofNat (87 + n)

/-- Digits of `n` in base 36, most significant first; empty for 0.
    Structural recursion on a fuel argument (`fuel ≥ n` suffices, since
    the value shrinks by division each step). -/
def base36Go (fuel n : Nat) : List Char :=
  match fuel with
  | 0 => []
  | fuel' + 1 => if n = 0 then [] else base36Go fuel' (n / 36) ++ [base36Digit (n % 36)]

/-- JS `n.toString(36)` for a natural number. -/
def base36 (n : Nat) : String :=
  if n = 0 then "0" else String.mk (base36Go n n)

/-- Standard base64 alphabet character for a 6-bit value. -/
def b64Char (n : Nat) : Char :=
  if n < 26 then Char.ofNat (65 + n)
  else if n < 52 then Char.ofNat (97 + (n - 26))
  else if n < 62 then Char.ofNat (48 + (n - 52))
  else if n = 62 then '+'
  else '/'

/-- Base64 encoding of a byte list (standard alphabet, `=` padding),
    modelling JS `Buffer.prototype.toString('base64')`. -/
def base64Encode : List Nat → List Char
  | [] => []
  | [a] =>
      [b64Char (a / 4 % 64), b64Char (a % 4 * 16), '=', '=']
  | [a, b] =>
      [b64Char (a / 4 % 64), b64Char (a % 4 * 16 + b / 16 % 16),
       b64Char (b % 16 * 4), '=']
  | a :: b :: c :: rest =>
      b64Char (a / 4 % 64) :: b64Char (a % 4 * 16 + b / 16 % 16) ::
      b64Char (b % 16 * 4 + c / 64 % 4) :: b64Char (c % 64) :: base64Encode rest

/-- JS `buffer.toString('base64')` as a Lean string. -/
def bufToBase64 (bytes : List Nat) : String :=
  String.mk (base64Encode bytes)

/-- A JS value in a position where the code distinguishes strings from
    objects with `typeof x === 'string'`; objects are carried together with
    their `JSON.stringify` image. -/
inductive JsVal
  | text (s : String)
  | object (stringified : String)
deriving DecidableEq, Repr

/-- An inbound control-channel message after `JSON.parse`, as far as the
    server inspects it: the `type` tag plus the fields each branch reads.
    `other` covers any parsed value whose `type` is unrecognized. -/
inductive ClientMsg
  | register (subdomain : Option String)
  | response (statusCode : Option Nat) (headers : Option (List (String × String)))
      (body : Option JsVal)
  | other (ty : String)
deriving DecidableEq, Repr

/-- Frames the server sends over a control channel
    (`error`, `registered`, `request`).  Note the `request` frame carries
    exactly the fields built at src/server.js:217-224 — type, method, url,
    headers, body, timestamp — and no correlation id of any kind. -/
inductive OutFrame
  | error (message : String)
  | registered (subdomain : String) (url : String) (tunnelId : String)
  | request (method : String) (url : String) (headers : List (String × String))
      (body : Option String) (timestamp : Nat)
deriving DecidableEq, Repr

/-- The JSON bodies the relay writes on public HTTP responses, by shape. -/
inductive RespBody
  | notValidTunnelUrl
  | notFound
  | tunnelNotFound (tunnelId : String) (available : List String)
  | tunnelNotConnected
  | failedToForward
  | gatewayTimeout
  | fromClient (body : Option String)
deriving DecidableEq, Repr

/-- Externally visible effects of one handler invocation. -/
inductive Effect
  | wsSend (wsId : Nat) (frame : OutFrame)
  | wsClose (wsId : Nat)
  | httpRespond (res : Nat) (status : Nat) (headers : List (String × String))
      (body : RespBody)
  | timerStart (res : Nat) (ms : Nat)
deriving DecidableEq, Repr

/-- Does this effect complete the HTTP response handle `r`? -/
def completesRes (r : Nat) : Effect → Bool
  | .httpRespond r' _ _ _ => r' == r
  | _ => false

/-- One tunnel entry of src/server.js (the object built at lines 110-115):
    the socket handle, two timestamps, and the single `pendingResponse`
    slot holding at most one waiting HTTP response handle. -/
structure Tunnel where
  socket : Nat
  createdAt : Nat
  lastActivity : Nat
  pendingResponse : Option Nat
deriving DecidableEq, Repr

/-- Per-connection WebSocket state: its handle and the `ws.tunnelId`
    property attached at registration (src/server.js:108). -/
structure WsConn where
  id : Nat
  tunnelId : Option String
deriving DecidableEq, Repr

/-- The `tunnels` Map of src/server.js. -/
abbrev TMap := List (String × Tunnel)

/-- `data.statusCode || 200` (src/server.js:144): 0 and absent are falsy. -/
def respStatus : Option Nat → Nat
  | none => 200
  | some n => if n = 0 then 200 else n

/-- Header copying of the response branch (src/server.js:137-143): every
    header except `content-length` (case-insensitive) is set on the
    response. -/
def filterRespHeaders : Option (List (String × String)) → List (String × String)
  | none => []
  | some hs => hs.filter (fun p => p.1.toLower ≠ "content-length")

/-- Body written by the response branch (src/server.js:145-149):
    `if (data.body)` (empty string is falsy, so it falls to `res.end()`),
    strings sent as-is, objects sent as their `JSON.stringify`. -/
def respBodyOut : Option JsVal → Option String
  | none => none
  | some (.text s) => if s = "" then none else some s
  | some (.object j) => some j

/-- The `ws.on('message')` handler of src/server.js:86-160.
    `msg = none` models a message on which `JSON.parse` throws (or whose
    parse result makes `data.type` access throw): the surrounding
    try/catch logs and drops it, touching nothing.
    `genId` is the `uuidv4().substring(0, 8)` fallback name.
    Returns the new tunnels map, the new per-connection state, and the
    emitted effects. -/
def handleMessage (host genId : String) (now : Nat) (ws : WsConn)
    (tunnels : TMap) (msg : Option ClientMsg) : TMap × WsConn × List Effect :=
  match msg with
  | none => (tunnels, ws, [])
  | some (.register sub) =>
      let tunnelId := match sub with
        | some s => if s = "" then genId else s
        | none => genId
      if mapHas tunnels tunnelId then
        (tunnels, ws,
         [.wsSend ws.id (.error ("Tunnel name " ++ tunnelId ++ " is already in use.")),
          .wsClose ws.id])
      else
        (mapSet tunnels tunnelId
           { socket := ws.id, createdAt := now, lastActivity := now,
             pendingResponse := none },
         { ws with tunnelId := some tunnelId },
         [.wsSend ws.id
            (.registered tunnelId ("https://" ++ host ++ "/t/" ++ tunnelId) tunnelId)])
  | some (.response sc hs body) =>
      match ws.tunnelId with
      | none => (tunnels, ws, [])
      | some tid =>
          match mapGet tunnels tid with
          | none => (tunnels, ws, [])
          | some t =>
              match t.pendingResponse with
              | none => (mapSet tunnels tid { t with lastActivity := now }, ws, [])
              | some res =>
                  (mapSet tunnels tid
                     { t with lastActivity := now, pendingResponse := none }, ws,
                   [.httpRespond res (respStatus sc) (filterRespHeaders hs)
                      (.fromClient (respBodyOut body))])
  | some (.other _) => (tunnels, ws, [])

/-- The `ws.on('close')` handler of src/server.js:162-170: if this
    connection registered a tunnel, delete its registry entry.  Nothing
    else happens: no pending response is completed. -/
def handleClose (ws : WsConn) (tunnels : TMap) : TMap × List Effect :=
  match ws.tunnelId with
  | some tid => if mapHas tunnels tid then (mapDelete tunnels tid, []) else (tunnels, [])
  | none => (tunnels, [])

/-- Character class `[a-zA-Z0-9-]` of the routing regex. -/
def isIdChar (c : Char) : Bool :=
  c.isAlphanum || c = '-'

/-- The routing regex match of src/server.js:181,
    `originalUrl.match(/^\/t\/([a-zA-Z0-9-]+)(\/.*)?$/)`, returning the
    tunnel id (group 1) and the remaining path (`match[2] || '/'`,
    src/server.js:188). -/
def matchTunnelUrl (s : String) : Option (String × String) :=
  match s.toList with
  | '/' :: 't' :: '/' :: rest =>
      let idCs := rest.takeWhile isIdChar
      let remCs := rest.dropWhile isIdChar
      if idCs = [] then none
      else if remCs = [] then some (String.mk idCs, "/")
      else if remCs.head? = some '/' then some (String.mk idCs, String.mk remCs)
      else none
  | _ => none

/-- A request body as express delivers it to the proxy handler: a raw
    buffer, a parsed JSON object (carried with its `JSON.stringify`
    image), or a plain string. -/
inductive ReqBody
  | buffer (bytes : List Nat)
  | object (stringified : String)
  | text (s : String)
deriving DecidableEq, Repr

/-- Body preparation of src/server.js:206-215: `if (req.body)` (empty
    string falsy), buffers to base64, objects to `JSON.stringify`,
    strings as-is. -/
def reqBodyOut : Option ReqBody → Option String
  | none => none
  | some (.buffer bs) => some (bufToBase64 bs)
  | some (.object j) => some j
  | some (.text s) => if s = "" then none else some s

/-- A public HTTP request as seen by the proxy handler. -/
structure HttpReq where
  originalUrl : String
  method : String
  headers : List (String × String)
  body : Option ReqBody
deriving DecidableEq, Repr

/-- The catch-all proxy handler of src/server.js:178-248.
    `readyState` gives each socket handle's current state; `sendOk` is
    whether `socket.send` succeeds (line 227's try/catch); `res` is the
    handle of the HTTP response being built for the caller.
    On the forwarding path the single `pendingResponse` slot is assigned
    (line 204) before the send; on send failure it is deleted (line 230).
    A successful send also arms the 30000 ms deadline timer (line 234). -/
def handleRequest (readyState : Nat → RState) (sendOk : Bool) (now : Nat)
    (req : HttpReq) (res : Nat) (tunnels : TMap) : TMap × List Effect :=
  match matchTunnelUrl req.originalUrl with
  | none => (tunnels, [.httpRespond res 404 [] .notValidTunnelUrl])
  | some (tunnelId, remainingUrl) =>
      match mapGet tunnels tunnelId with
      | none =>
          (tunnels,
           [.httpRespond res 404 [] (.tunnelNotFound tunnelId (tunnels.map (·.1)))])
      | some t =>
          if readyState t.socket ≠ RState.OPEN then
            (tunnels, [.httpRespond res 503 [] .tunnelNotConnected])
          else
            let frame := OutFrame.request req.method remainingUrl req.headers
                (reqBodyOut req.body) now
            if sendOk then
              (mapSet tunnels tunnelId { t with pendingResponse := some res },
               [.wsSend t.socket frame, .timerStart res 30000])
            else
              (mapSet tunnels tunnelId { t with pendingResponse := none },
               [.httpRespond res 502 [] .failedToForward])

/-- The deadline-timer callback of src/server.js:234-242, acting on the
    tunnel object it captured.  It fires only if the slot still holds
    this very response handle; 504 is written only when headers were not
    already sent, but the slot is cleared either way. -/
def timeoutFire (headersSent : Bool) (t : Tunnel) (res : Nat) : Tunnel × List Effect :=
  if t.pendingResponse = some res then
    ({ t with pendingResponse := none },
     if headersSent then [] else [.httpRespond res 504 [] .gatewayTimeout])
  else (t, [])

/-- `timeoutFire` lifted to a tunnel still present in the registry: the
    closure captured the very object the map holds, so mutating it
    mutates the map's view. -/
def timeoutFireMap (headersSent : Bool) (tunnels : TMap) (tid : String) (res : Nat) :
    TMap × List Effect :=
  match mapGet tunnels tid with
  | some t =>
      let r := timeoutFire headersSent t res
      (mapSet tunnels tid r.1, r.2)
  | none => (tunnels, [])

/-- The `res.on('finish')` handler of src/server.js:244-247: clears the
    deadline timer and unconditionally deletes the pending slot. -/
def finishHandler (t : Tunnel) : Tunnel :=
  { t with pendingResponse := none }

/-- An all-sockets-open environment, for concrete scenarios. -/
def allOpen : Nat → RState := fun _ => RState.OPEN

namespace Sub

/-- One tunnel entry of src/unnamed/part_000 (the object built at lines
    96-101): keyed by a server-generated uuid, with a `subdomain` alias
    filled in at registration. -/
structure STunnel where
  socket : Nat
  subdomain : Option String
  createdAt : Nat
  lastActivity : Nat
  pendingResponse : Option Nat
deriving DecidableEq, Repr

/-- The `tunnels` Map of src/unnamed/part_000. -/
abbrev SMap := List (String × OpiTunnel.Sub.STunnel)

/-- The `wss.on('connection')` handler of src/unnamed/part_000:90-101:
    an entry keyed by a fresh uuid is created immediately, with no
    subdomain yet. -/
def handleConnect (now : Nat) (tunnelId : String) (wsId : Nat) (tunnels : SMap) : SMap :=
  mapSet tunnels tunnelId
    { socket := wsId, subdomain := none, createdAt := now, lastActivity := now,
      pendingResponse := none }

/-- The `register` branch of the src/unnamed/part_000 message handler
    (lines 103-137).  `lastActivity` is refreshed first (line 110).  The
    requested subdomain (falsy values replaced by the uuid's first eight
    characters) is checked against the first tunnel already holding it;
    if that holder is a different socket, the name is silently suffixed
    with `-` and the base-36 rendering of `Date.now()` (line 122), and
    registration proceeds with the mutated name. -/
def register (host : String) (now : Nat) (tunnelId : String) (wsId : Nat)
    (requested : Option String) (tunnels : SMap) : SMap × List Effect :=
  match mapGet tunnels tunnelId with
  | none => (tunnels, [])
  | some t =>
      let sub0 := match requested with
        | some s => if s = "" then tunnelId.take 8 else s
        | none => tunnelId.take 8
      let collide : Bool := match (tunnels.map (·.2)).find? (fun u => u.subdomain == some sub0) with
        | some u => u.socket != wsId
        | none => false
      let sub := cond collide (sub0 ++ "-" ++ base36 now) sub0
      (mapSet tunnels tunnelId { t with lastActivity := now, subdomain := some sub },
       [.wsSend wsId (.registered sub ("https://" ++ sub ++ "." ++ host) tunnelId)])

/-- `host.split('.')[0]` (src/unnamed/part_000:194). -/
def hostFirstLabel (host : String) : String :=
  String.mk (host.toList.takeWhile (fun c => c ≠ '.'))

/-- `host.replace(/:\d+$/, '')` (src/unnamed/part_000:197): strip one
    trailing colon-and-digits port suffix, if present. -/
def stripPort (host : String) : String :=
  let rcs := host.toList.reverse
  match rcs.takeWhile Char.isDigit, rcs.dropWhile Char.isDigit with
  | _ :: _, ':' :: rest => String.mk rest.reverse
  | _, _ => host

/-- The subdomain lookup loop of src/unnamed/part_000:202-208: first
    entry, in insertion order, whose `subdomain` equals the request's. -/
def findBySubdomain (tunnels : SMap) (sub : String) : Option (String × STunnel) :=
  tunnels.find? (fun p => p.2.subdomain == some sub)

/-- The catch-all proxy handler of src/unnamed/part_000:192-270.
    Note a faithful modelling quirk of line 205: the matched tunnel is
    spread into a fresh object (`targetTunnel = { tunnelId, ...tunnel }`),
    so the later `targetTunnel.pendingResponse = res` lands on that copy
    and the registry entry is never updated — the returned map is
    unchanged on the forwarding path. -/
def handleRequestSub (readyState : Nat → RState) (sendOk : Bool) (now : Nat)
    (host url method : String) (headers : List (String × String))
    (body : Option ReqBody) (res : Nat) (tunnels : SMap) : SMap × List Effect :=
  let sub := hostFirstLabel host
  if sub = stripPort host then
    (tunnels, [.httpRespond res 404 [] .notFound])
  else
    match findBySubdomain tunnels sub with
    | none =>
        (tunnels,
         [.httpRespond res 404 []
            (.tunnelNotFound sub
              (((tunnels.map (fun p => p.2.subdomain)).filterMap id).filter
                (fun s => decide (s ≠ ""))))])
    | some (_, t) =>
        if readyState t.socket ≠ RState.OPEN then
          (tunnels, [.httpRespond res 503 [] .tunnelNotConnected])
        else
          let frame := OutFrame.request method url headers (reqBodyOut body) now
          if sendOk then
            (tunnels, [.wsSend t.socket frame, .timerStart res 30000])
          else
            (tunnels, [.httpRespond res 502 [] .failedToForward])

end Sub

/-! Concrete scenarios used to settle the claims. -/

/-- A registry with one open tunnel `abc` and nothing pending. -/
def c1tunnels : TMap :=
  [("abc", { socket := 1, createdAt := 0, lastActivity := 0, pendingResponse := none })]

/-- First public request, carried by HTTP response handle 1. -/
def c1req1 : HttpReq :=
  { originalUrl := "/t/abc/one", method := "POST", headers := [], body := some (.text "body-1") }

/-- Second public request, carried by HTTP response handle 2. -/
def c1req2 : HttpReq :=
  { originalUrl := "/t/abc/two", method := "POST", headers := [], body := some (.text "body-2") }

/-- The control connection that registered `abc`. -/
def c1ws : WsConn := { id := 1, tunnelId := some "abc" }

/-- Forward the first request. -/
def c1step1 : TMap × List Effect := handleRequest allOpen true 10 c1req1 1 c1tunnels

/-- Forward the second request while the first is still in flight. -/
def c1step2 : TMap × List Effect := handleRequest allOpen true 11 c1req2 2 c1step1.1

/-- The private client now answers the first request (its reply body says
    so); the relay matches it against the single slot. -/
def c1step3 : TMap × WsConn × List Effect :=
  handleMessage "example.com" "gen" 12 c1ws c1step2.1
    (some (.response (some 200) none (some (.text "reply-to-one"))))

/-- A registry whose tunnel `abc` has HTTP call 7 pending. -/
def c2tunnels : TMap :=
  [("abc", { socket := 1, createdAt := 0, lastActivity := 0, pendingResponse := some 7 })]

/-- The control connection owning `abc` in the C2 scenario. -/
def c2ws : WsConn := { id := 1, tunnelId := some "abc" }

/-- Subdomain-variant registry: session `uuid-1` holds alias `abc`;
    session `uuid-2` is connected but not yet registered. -/
def c3tunnels : Sub.SMap :=
  [("uuid-1", { socket := 1, subdomain := some "abc", createdAt := 0, lastActivity := 0,
                pendingResponse := none }),
   ("uuid-2", { socket := 2, subdomain := none, createdAt := 5, lastActivity := 5,
                pendingResponse := none })]

/-- Session `uuid-2` requests the already-held alias `abc` at time 42. -/
def c3after : Sub.SMap × List Effect :=
  Sub.register "example.com" 42 "uuid-2" 2 (some "abc") c3tunnels

/-- A registry whose tunnel `abc` has an empty pending slot and
    `lastActivity = 5`. -/
def c4tunnels : TMap :=
  [("abc", { socket := 1, createdAt := 0, lastActivity := 5, pendingResponse := none })]

/-- The control connection owning `abc` in the C4 scenario. -/
def c4ws : WsConn := { id := 1, tunnelId := some "abc" }

/-- A late response frame arrives at time 100, after the pending entry
    was removed. -/
def c4after : TMap × WsConn × List Effect :=
  handleMessage "example.com" "gen" 100 c4ws c4tunnels
    (some (.response (some 200) none (some (.text "late"))))

/-- C5 scenario start: one open tunnel `abc`, nothing pending. -/
def c5st0 : TMap :=
  [("abc", { socket := 1, createdAt := 0, lastActivity := 0, pendingResponse := none })]

/-- The control connection owning `abc` in the C5 scenario. -/
def c5ws : WsConn := { id := 1, tunnelId := some "abc" }

/-- Caller 1's request is forwarded. -/
def c5s1 : TMap × List Effect :=
  handleRequest allOpen true 10
    { originalUrl := "/t/abc/one", method := "GET", headers := [], body := none } 1 c5st0

/-- Caller 2's request is forwarded while caller 1 is in flight,
    overwriting the slot. -/
def c5s2 : TMap × List Effect :=
  handleRequest allOpen true 11
    { originalUrl := "/t/abc/two", method := "GET", headers := [], body := none } 2 c5s1.1

/-- Caller 1's 30 s deadline timer fires: the slot now holds caller 2,
    so the guard fails. -/
def c5s3 : TMap × List Effect := timeoutFireMap false c5s2.1 "abc" 1

/-- The only response frame ever sent by the client: it completes the
    current slot occupant (caller 2), whose finish event then clears
    caller 2's timer. -/
def c5s4 : TMap × WsConn × List Effect :=
  handleMessage "example.com" "gen" 12 c5ws c5s3.1 (some (.response none none none))

/-- The session finally closes. -/
def c5s5 : TMap × List Effect := handleClose c5ws c5s4.1

/-- Every effect emitted over the whole C5 run. -/
def c5effects : List Effect :=
  c5s1.2 ++ c5s2.2 ++ c5s3.2 ++ c5s4.2.2 ++ c5s5.2

/-- A registry with one tunnel `abc` registered by socket 5. -/
def c6tunnels : TMap :=
  [("abc", { socket := 5, createdAt := 0, lastActivity := 0, pendingResponse := none })]

/-- The already-registered control connection in the C6 scenario. -/
def c6ws : WsConn := { id := 5, tunnelId := some "abc" }

/-- The registered connection sends a second register frame requesting
    the free name `xyz`. -/
def c6after : TMap × WsConn × List Effect :=
  handleMessage "example.com" "gen" 50 c6ws c6tunnels (some (.register (some "xyz")))

/-- A request carrying host-identifying and hop-by-hop headers. -/
def c8req : HttpReq :=
  { originalUrl := "/t/abc/echo", method := "GET",
    headers := [("host", "relay.example.com"), ("connection", "keep-alive")],
    body := none }

/-- A registry with one open tunnel `abc` for the C8 scenario. -/
def c8tunnels : TMap :=
  [("abc", { socket := 1, createdAt := 0, lastActivity := 0, pendingResponse := none })]

/-- Effects of forwarding the C8 request. -/
def c8effs : List Effect := (handleRequest allOpen true 99 c8req 3 c8tunnels).2

/-! Helper lemmas about the Map model and the routing regex. -/

theorem mapGet_mapSet_self {α : Type} (m : List (String × α)) (k : String) (v : α) :
    mapGet (mapSet m k v) k = some v := by
  induction m with
  | nil => simp [mapGet, mapSet]
  | cons p rest ih =>
      obtain ⟨k', v'⟩ := p
      by_cases h : k' = k
      · simp [mapSet, h, mapGet]
      · simp [mapSet, h, mapGet, ih]

theorem mapGet_mapSet_ne {α : Type} (m : List (String × α)) (k k' : String) (v : α)
    (h : k' ≠ k) : mapGet (mapSet m k v) k' = mapGet m k' := by
  have h' : ¬ (k = k') := fun hh => h hh.symm
  induction m with
  | nil => simp [mapGet, mapSet, h']
  | cons p rest ih =>
      obtain ⟨k₀, v₀⟩ := p
      by_cases h₀ : k₀ = k
      · subst h₀
        simp [mapSet, mapGet, h']
      · simp only [mapSet, if_neg h₀]
        by_cases h₁ : k₀ = k'
        · simp [mapGet, h₁]
        · simp [mapGet, h₁, ih]

theorem matchTunnelUrl_strip (tid rem : String)
    (h₁ : tid.toList ≠ []) (h₂ : tid.toList.all isIdChar = true)
    (h₃ : rem.toList.head? = some '/') :
    matchTunnelUrl ("/t/" ++ tid ++ rem) = some (tid, rem) := by
  have hall : ∀ a ∈ tid.toList, isIdChar a = true := List.all_eq_true.mp h₂
  obtain ⟨cs, hc⟩ : ∃ cs, rem.toList = '/' :: cs := by
    cases hr : rem.toList with
    | nil => rw [hr] at h₃; simp at h₃
    | cons c cs =>
        rw [hr] at h₃
        simp only [List.head?] at h₃
        exact ⟨cs, by rw [Option.some_inj] at h₃; rw [h₃]⟩
  have hl : ("/t/" ++ tid ++ rem).toList
      = '/' :: 't' :: '/' :: (tid.toList ++ rem.toList) := by
    show ("/t/" ++ tid ++ rem).data = _
    rw [String.data_append, String.data_append]
    simp [String.toList]
  have htake : (tid.toList ++ rem.toList).takeWhile isIdChar = tid.toList := by
    rw [List.takeWhile_append_of_pos hall, hc]
    simp [List.takeWhile, isIdChar]
  have hdrop : (tid.toList ++ rem.toList).dropWhile isIdChar = rem.toList := by
    rw [List.dropWhile_append_of_pos hall, hc]
    simp [List.dropWhile, isIdChar]
  unfold matchTunnelUrl
  rw [hl]
  simp only [htake, hdrop]
  rw [if_neg h₁, if_neg (by rw [hc]; simp), if_pos (by rw [hc]; simp)]
  have hmk₁ : String.mk tid.toList = tid := rfl
  have hmk₂ : String.mk rem.toList = rem := rfl
  rw [hmk₁, hmk₂]

/-! Theorems settling the claims. -/

/-- C9: a malformed control-channel message (one on which `JSON.parse`
    throws, or whose parse result has no usable `type`) and a message
    with an unrecognized `type` are both dropped: the registry, the
    per-connection state and every pending call are unchanged, and no
    effect is emitted — in particular the channel is not closed and
    nothing is sent.  The handler is a total function, so the relay
    cannot crash on such input. -/
theorem c9_malformed_dropped :
    (∀ host genId now ws tunnels,
        handleMessage host genId now ws tunnels none = (tunnels, ws, [])) ∧
    (∀ host genId now ws tunnels ty,
        handleMessage host genId now ws tunnels (some (.other ty)) = (tunnels, ws, [])) := by
  exact ⟨fun _ _ _ _ _ => rfl, fun _ _ _ _ _ _ => rfl⟩

/-- C7: in both server variants, when the resolved session's channel is
    present but not OPEN, the caller gets 503, no request frame is
    written to any channel, and the registry is unchanged. -/
theorem c7_unavailable_503 :
    (∀ (rs : Nat → RState) (ok : Bool) (now : Nat) (req : HttpReq) (res : Nat)
        (tunnels : TMap) (tid rem : String) (t : Tunnel),
        matchTunnelUrl req.originalUrl = some (tid, rem) →
        mapGet tunnels tid = some t →
        rs t.socket ≠ RState.OPEN →
        handleRequest rs ok now req res tunnels
          = (tunnels, [Effect.httpRespond res 503 [] RespBody.tunnelNotConnected])) ∧
    (∀ (rs : Nat → RState) (ok : Bool) (now : Nat) (host url method : String)
        (hs : List (String × String)) (body : Option ReqBody) (res : Nat)
        (tunnels : Sub.SMap) (tid : String) (t : Sub.STunnel),
        Sub.hostFirstLabel host ≠ Sub.stripPort host →
        Sub.findBySubdomain tunnels (Sub.hostFirstLabel host) = some (tid, t) →
        rs t.socket ≠ RState.OPEN →
        Sub.handleRequestSub rs ok now host url method hs body res tunnels
          = (tunnels, [Effect.httpRespond res 503 [] RespBody.tunnelNotConnected])) := by
  constructor
  · intro rs ok now req res tunnels tid rem t hm hg ho
    simp [handleRequest, hm, hg, ho]
  · intro rs ok now host url method hs body res tunnels tid t hh hf ho
    simp [Sub.handleRequestSub, hh, hf, ho]

/-- C7 witness: concrete closed tunnels in both variants answer 503. -/
theorem c7_witness :
    handleRequest (fun _ => RState.CLOSED) true 0
        { originalUrl := "/t/abc/x", method := "GET", headers := [], body := none } 9
        [("abc", { socket := 1, createdAt := 0, lastActivity := 0, pendingResponse := none })]
      = ([("abc", { socket := 1, createdAt := 0, lastActivity := 0, pendingResponse := none })],
         [Effect.httpRespond 9 503 [] RespBody.tunnelNotConnected]) ∧
    Sub.handleRequestSub (fun _ => RState.CLOSED) true 0 "abc.example.com" "/x" "GET" [] none 9
        [("u1", { socket := 2, subdomain := some "abc", createdAt := 0, lastActivity := 0,
                  pendingResponse := none })]
      = ([("u1", { socket := 2, subdomain := some "abc", createdAt := 0, lastActivity := 0,
                   pendingResponse := none })],
         [Effect.httpRespond 9 503 [] RespBody.tunnelNotConnected]) := by
  constructor
  · exact c7_unavailable_503.1 (fun _ => RState.CLOSED) true 0
      { originalUrl := "/t/abc/x", method := "GET", headers := [], body := none } 9
      [("abc", { socket := 1, createdAt := 0, lastActivity := 0, pendingResponse := none })]
      "abc" "/x" { socket := 1, createdAt := 0, lastActivity := 0, pendingResponse := none }
      (by decide) (by decide) (by decide)
  · exact c7_unavailable_503.2 (fun _ => RState.CLOSED) true 0 "abc.example.com" "/x" "GET"
      [] none 9
      [("u1", { socket := 2, subdomain := some "abc", createdAt := 0, lastActivity := 0,
                pendingResponse := none })]
      "u1" { socket := 2, subdomain := some "abc", createdAt := 0, lastActivity := 0,
             pendingResponse := none }
      (by decide) (by decide) (by decide)

/-- C10: in both server variants, every early-failing proxied request —
    URL not of the `/t/<id>` shape (or host equal to the bare dashboard
    domain), unknown tunnel id/alias, and channel not open — returns its
    404/404/503 without creating a pending call, starting a timer,
    writing a frame, or changing the registry or any session. -/
theorem c10_early_returns_pure :
    (∀ (rs : Nat → RState) (ok : Bool) (now : Nat) (req : HttpReq) (res : Nat)
        (tunnels : TMap),
        matchTunnelUrl req.originalUrl = none →
        handleRequest rs ok now req res tunnels
          = (tunnels, [Effect.httpRespond res 404 [] RespBody.notValidTunnelUrl])) ∧
    (∀ (rs : Nat → RState) (ok : Bool) (now : Nat) (req : HttpReq) (res : Nat)
        (tunnels : TMap) (tid rem : String),
        matchTunnelUrl req.originalUrl = some (tid, rem) →
        mapGet tunnels tid = none →
        handleRequest rs ok now req res tunnels
          = (tunnels,
             [Effect.httpRespond res 404 []
                (RespBody.tunnelNotFound tid (tunnels.map (fun p => p.1)))])) ∧
    (∀ (rs : Nat → RState) (ok : Bool) (now : Nat) (req : HttpReq) (res : Nat)
        (tunnels : TMap) (tid rem : String) (t : Tunnel),
        matchTunnelUrl req.originalUrl = some (tid, rem) →
        mapGet tunnels tid = some t →
        rs t.socket ≠ RState.OPEN →
        handleRequest rs ok now req res tunnels
          = (tunnels, [Effect.httpRespond res 503 [] RespBody.tunnelNotConnected])) ∧
    (∀ (rs : Nat → RState) (ok : Bool) (now : Nat) (host url method : String)
        (hs : List (String × String)) (body : Option ReqBody) (res : Nat)
        (tunnels : Sub.SMap),
        Sub.hostFirstLabel host = Sub.stripPort host →
        Sub.handleRequestSub rs ok now host url method hs body res tunnels
          = (tunnels, [Effect.httpRespond res 404 [] RespBody.notFound])) ∧
    (∀ (rs : Nat → RState) (ok : Bool) (now : Nat) (host url method : String)
        (hs : List (String × String)) (body : Option ReqBody) (res : Nat)
        (tunnels : Sub.SMap),
        Sub.hostFirstLabel host ≠ Sub.stripPort host →
        Sub.findBySubdomain tunnels (Sub.hostFirstLabel host) = none →
        Sub.handleRequestSub rs ok now host url method hs body res tunnels
          = (tunnels,
             [Effect.httpRespond res 404 []
                (RespBody.tunnelNotFound (Sub.hostFirstLabel host)
                  (((tunnels.map (fun p => p.2.subdomain)).filterMap id).filter
                    (fun s => decide (s ≠ ""))))])) ∧
    (∀ (rs : Nat → RState) (ok : Bool) (now : Nat) (host url method : String)
        (hs : List (String × String)) (body : Option ReqBody) (res : Nat)
        (tunnels : Sub.SMap) (tid : String) (t : Sub.STunnel),
        Sub.hostFirstLabel host ≠ Sub.stripPort host →
        Sub.findBySubdomain tunnels (Sub.hostFirstLabel host) = some (tid, t) →
        rs t.socket ≠ RState.OPEN →
        Sub.handleRequestSub rs ok now host url method hs body res tunnels
          = (tunnels, [Effect.httpRespond res 503 [] RespBody.tunnelNotConnected])) := by
  refine ⟨?_, ?_, ?_, ?_, ?_, ?_⟩
  · intro rs ok now req res tunnels hm
    simp [handleRequest, hm]
  · intro rs ok now req res tunnels tid rem hm hg
    simp [handleRequest, hm, hg]
  · intro rs ok now req res tunnels tid rem t hm hg ho
    simp [handleRequest, hm, hg, ho]
  · intro rs ok now host url method hs body res tunnels hh
    simp [Sub.handleRequestSub, hh]
  · intro rs ok now host url method hs body res tunnels hh hf
    simp [Sub.handleRequestSub, hh, hf]
  · intro rs ok now host url method hs body res tunnels tid t hh hf ho
    simp [Sub.handleRequestSub, hh, hf, ho]

theorem mapSet_mapSet_self {α : Type} (m : List (String × α)) (k : String) (v v' : α) :
    mapSet (mapSet m k v) k v' = mapSet m k v' := by
  induction m with
  | nil => simp [mapSet]
  | cons p rest ih =>
      obtain ⟨k₀, v₀⟩ := p
      by_cases h : k₀ = k
      · simp [mapSet, h]
      · simp [mapSet, h, ih]

/-- C1 counterexample: the session does not keep one pending entry per
    in-flight call.  With tunnel `abc` open, caller 1's request is
    forwarded, then caller 2's: the single `pendingResponse` slot now
    holds caller 2 and caller 1's entry is gone (first conjunct).  The
    client then answers the first request (its body says `reply-to-one`;
    the protocol has no correlation ids), and that reply is delivered to
    caller 2 — a different caller (second conjunct).  Across the whole
    run no completion ever reaches caller 1 (third conjunct). -/
theorem c1_counterexample :
    ((mapGet c1step2.1 "abc").map (fun t => t.pendingResponse) = some (some 2)) ∧
    (c1step3.2.2
      = [Effect.httpRespond 2 200 [] (RespBody.fromClient (some "reply-to-one"))]) ∧
    ((c1step1.2 ++ c1step2.2 ++ c1step3.2.2).all (fun e => !(completesRes 1 e)) = true) := by
  decide

/-- C1 (amended): the session keeps a single `pendingResponse` slot, not
    a correlation-id-keyed table.  Forwarding a request stores that
    caller in the slot, overwriting whatever was there (first conjunct);
    an inbound response frame is delivered to whichever caller currently
    occupies the slot (second conjunct).  Under concurrency, replies are
    therefore delivered by arrival order against slot occupancy, not by
    request identity, and an overwritten caller's entry is lost. -/
theorem c1_single_slot_amended :
    (∀ (rs : Nat → RState) (now : Nat) (req : HttpReq) (r2 : Nat) (tunnels : TMap)
        (tid rem : String) (t : Tunnel),
        matchTunnelUrl req.originalUrl = some (tid, rem) →
        mapGet tunnels tid = some t →
        rs t.socket = RState.OPEN →
        mapGet (handleRequest rs true now req r2 tunnels).1 tid
          = some { t with pendingResponse := some r2 }) ∧
    (∀ (host genId : String) (now : Nat) (ws : WsConn) (tunnels : TMap) (tid : String)
        (t : Tunnel) (res : Nat) (sc : Option Nat) (hs : Option (List (String × String)))
        (body : Option JsVal),
        ws.tunnelId = some tid →
        mapGet tunnels tid = some t →
        t.pendingResponse = some res →
        (handleMessage host genId now ws tunnels (some (.response sc hs body))).2.2
          = [Effect.httpRespond res (respStatus sc) (filterRespHeaders hs)
               (RespBody.fromClient (respBodyOut body))]) := by
  constructor
  · intro rs now req r2 tunnels tid rem t hm hg ho
    simp [handleRequest, hm, hg, ho, mapGet_mapSet_self]
  · intro host genId now ws tunnels tid t res sc hs body hw hg hp
    simp [handleMessage, hw, hg, hp]

/-- C1 witness: with caller 1 in the slot, forwarding caller 2's request
    replaces the slot content, and a response frame then completes
    caller 2. -/
theorem c1_witness :
    mapGet (handleRequest allOpen true 11
        { originalUrl := "/t/abc/two", method := "POST", headers := [],
          body := some (.text "body-2") } 2
        [("abc", { socket := 1, createdAt := 0, lastActivity := 0,
                   pendingResponse := some 1 })]).1 "abc"
      = some { socket := 1, createdAt := 0, lastActivity := 0, pendingResponse := some 2 } ∧
    (handleMessage "example.com" "gen" 12 { id := 1, tunnelId := some "abc" }
        [("abc", { socket := 1, createdAt := 0, lastActivity := 0,
                   pendingResponse := some 2 })]
        (some (.response (some 200) none (some (.text "reply-to-one"))))).2.2
      = [Effect.httpRespond 2 200 [] (RespBody.fromClient (some "reply-to-one"))] := by
  constructor
  · exact c1_single_slot_amended.1 allOpen 11
      { originalUrl := "/t/abc/two", method := "POST", headers := [],
        body := some (.text "body-2") } 2
      [("abc", { socket := 1, createdAt := 0, lastActivity := 0, pendingResponse := some 1 })]
      "abc" "/two"
      { socket := 1, createdAt := 0, lastActivity := 0, pendingResponse := some 1 }
      (by decide) (by decide) (by decide)
  · exact c1_single_slot_amended.2 "example.com" "gen" 12 { id := 1, tunnelId := some "abc" }
      [("abc", { socket := 1, createdAt := 0, lastActivity := 0, pendingResponse := some 2 })]
      "abc" { socket := 1, createdAt := 0, lastActivity := 0, pendingResponse := some 2 }
      2 (some 200) none (some (.text "reply-to-one"))
      (by decide) (by decide) (by decide)

/-- C2 counterexample: tunnel `abc` has call 7 pending when its channel
    closes.  The close handler merely deletes the registry entry: it
    emits no effect at all, so no 502-class completion reaches caller 7
    before the transition finishes. -/
theorem c2_counterexample :
    handleClose c2ws c2tunnels = ([], []) ∧
    ((handleClose c2ws c2tunnels).2.all (fun e => !(completesRes 7 e)) = true) := by
  decide

/-- C2 (amended): when a registered session's channel closes, the
    registry entry is removed but no outstanding pending call is
    completed — the close handler emits no effects (first conjunct).
    The waiting caller is answered only when its 30 s deadline timer
    fires: the timer closure retains the session object, still sees the
    caller in the slot, and responds 504 (second conjunct). -/
theorem c2_close_amended :
    (∀ (ws : WsConn) (tunnels : TMap) (tid : String),
        ws.tunnelId = some tid →
        mapHas tunnels tid = true →
        handleClose ws tunnels = (mapDelete tunnels tid, [])) ∧
    (∀ (t : Tunnel) (res : Nat),
        t.pendingResponse = some res →
        timeoutFire false t res
          = ({ t with pendingResponse := none },
             [Effect.httpRespond res 504 [] RespBody.gatewayTimeout])) := by
  constructor
  · intro ws tunnels tid hw hh
    simp [handleClose, hw, hh]
  · intro t res hp
    simp [timeoutFire, hp]

/-- C2 witness: closing the owner of `xyz` deletes its entry with no
    completion effect; the retained session object later answers its
    pending caller 8 with 504 when the timer fires. -/
theorem c2_witness :
    handleClose { id := 3, tunnelId := some "xyz" }
        [("xyz", { socket := 3, createdAt := 0, lastActivity := 0, pendingResponse := some 8 })]
      = ([], []) ∧
    timeoutFire false
        { socket := 3, createdAt := 0, lastActivity := 0, pendingResponse := some 8 } 8
      = ({ socket := 3, createdAt := 0, lastActivity := 0, pendingResponse := none },
         [Effect.httpRespond 8 504 [] RespBody.gatewayTimeout]) := by
  constructor
  · exact c2_close_amended.1 { id := 3, tunnelId := some "xyz" }
      [("xyz", { socket := 3, createdAt := 0, lastActivity := 0, pendingResponse := some 8 })]
      "xyz" (by decide) (by decide)
  · exact c2_close_amended.2
      { socket := 3, createdAt := 0, lastActivity := 0, pendingResponse := some 8 } 8
      (by decide)

/-- C3 counterexample: in the subdomain variant, session `uuid-2`
    requests alias `abc`, which session `uuid-1` (a different socket)
    already holds.  Registration does not fail with an error frame:
    the alias is silently suffixed to `abc-16` (base-36 of the clock
    value 42) and a `registered` frame is sent, mutating the name. -/
theorem c3_counterexample :
    c3after.2
      = [Effect.wsSend 2 (OutFrame.registered "abc-16" "https://abc-16.example.com" "uuid-2")] ∧
    (mapGet c3after.1 "uuid-2").map (fun t => t.subdomain) = some (some "abc-16") := by
  decide

/-- C3 (amended): the two variants diverge.  In the path-addressed
    server, a registration whose requested name is already held fails
    deterministically: an error frame is sent, the connection is closed,
    no registry entry is made and the holder's entry is untouched (first
    conjunct — the whole registry is returned unchanged).  In the
    subdomain variant, a requested alias held by a different socket is
    silently suffixed with `-` and the base-36 clock value, and
    registration succeeds under the mutated name (second conjunct). -/
theorem c3_conflict_amended :
    (∀ (host genId : String) (now : Nat) (ws : WsConn) (tunnels : TMap) (s : String),
        s ≠ "" →
        mapHas tunnels s = true →
        handleMessage host genId now ws tunnels (some (.register (some s)))
          = (tunnels, ws,
             [Effect.wsSend ws.id
                (OutFrame.error ("Tunnel name " ++ s ++ " is already in use.")),
              Effect.wsClose ws.id])) ∧
    (∀ (host : String) (now : Nat) (tid : String) (wsId : Nat) (s : String)
        (tunnels : Sub.SMap) (t u : Sub.STunnel),
        mapGet tunnels tid = some t →
        s ≠ "" →
        (tunnels.map (fun p => p.2)).find? (fun v => v.subdomain == some s) = some u →
        u.socket ≠ wsId →
        Sub.register host now tid wsId (some s) tunnels
          = (mapSet tunnels tid
               { t with lastActivity := now, subdomain := some (s ++ "-" ++ base36 now) },
             [Effect.wsSend wsId
                (OutFrame.registered (s ++ "-" ++ base36 now)
                  ("https://" ++ (s ++ "-" ++ base36 now) ++ "." ++ host) tid)])) := by
  constructor
  · intro host genId now ws tunnels s hs hh
    simp [handleMessage, hs, hh]
  · intro host now tid wsId s tunnels t u hg hs hfind hu
    have hb : (u.socket != wsId) = true := by simp [bne_iff_ne]; exact hu
    simp [Sub.register, hg, hs, hfind, hb]

/-- C3 witness: a held name is rejected with an error frame in the
    path-addressed server, and silently suffixed in the subdomain
    variant. -/
theorem c3_witness :
    handleMessage "example.com" "gen" 7 { id := 9, tunnelId := none }
        [("abc", { socket := 1, createdAt := 0, lastActivity := 0, pendingResponse := none })]
        (some (.register (some "abc")))
      = ([("abc", { socket := 1, createdAt := 0, lastActivity := 0, pendingResponse := none })],
         { id := 9, tunnelId := none },
         [Effect.wsSend 9 (OutFrame.error "Tunnel name abc is already in use."),
          Effect.wsClose 9]) ∧
    Sub.register "example.com" 42 "uuid-2" 2 (some "abc") c3tunnels
      = (mapSet c3tunnels "uuid-2"
           { socket := 2, subdomain := some "abc-16", createdAt := 5, lastActivity := 42,
             pendingResponse := none },
         [Effect.wsSend 2 (OutFrame.registered "abc-16" "https://abc-16.example.com" "uuid-2")]) := by
  constructor
  · exact c3_conflict_amended.1 "example.com" "gen" 7 { id := 9, tunnelId := none }
      [("abc", { socket := 1, createdAt := 0, lastActivity := 0, pendingResponse := none })]
      "abc" (by decide) (by decide)
  · exact c3_conflict_amended.2 "example.com" 42 "uuid-2" 2 "abc" c3tunnels
      { socket := 2, subdomain := none, createdAt := 5, lastActivity := 5,
        pendingResponse := none }
      { socket := 1, subdomain := some "abc", createdAt := 0, lastActivity := 0,
        pendingResponse := none }
      (by decide) (by decide) (by decide) (by decide)

/-- C4 counterexample: tunnel `abc` has an empty pending slot (the entry
    was removed) and `lastActivity = 5`.  A response frame arriving at
    time 100 is dropped as far as HTTP callers are concerned (no
    effects), but it is not free of observable effect on session state:
    `lastActivity` is refreshed to 100, so the registry state changed. -/
theorem c4_counterexample :
    c4after.2.2 = [] ∧
    c4after.1 ≠ c4tunnels ∧
    (mapGet c4after.1 "abc").map (fun t => t.lastActivity) = some 100 := by
  decide

/-- C4 (amended): when the deadline fires with the caller still in the
    slot (and headers unsent), the caller receives 504 and the entry is
    removed (first conjunct).  A response frame arriving while the slot
    is empty — the protocol carries no correlation ids — is dropped with
    no effect on any HTTP caller and no change to the set of registered
    tunnels or the pending slot, except that the session's
    `lastActivity` timestamp is refreshed (second conjunct). -/
theorem c4_timeout_amended :
    (∀ (t : Tunnel) (res : Nat),
        t.pendingResponse = some res →
        timeoutFire false t res
          = ({ t with pendingResponse := none },
             [Effect.httpRespond res 504 [] RespBody.gatewayTimeout])) ∧
    (∀ (host genId : String) (now : Nat) (ws : WsConn) (tunnels : TMap) (tid : String)
        (t : Tunnel) (sc : Option Nat) (hs : Option (List (String × String)))
        (body : Option JsVal),
        ws.tunnelId = some tid →
        mapGet tunnels tid = some t →
        t.pendingResponse = none →
        handleMessage host genId now ws tunnels (some (.response sc hs body))
          = (mapSet tunnels tid { t with lastActivity := now }, ws, [])) := by
  constructor
  · intro t res hp
    simp [timeoutFire, hp]
  · intro host genId now ws tunnels tid t sc hs body hw hg hp
    simp [handleMessage, hw, hg, hp]

/-- C4 witness: a timed-out caller 6 receives 504 and is removed; a late
    response frame then only refreshes `lastActivity`. -/
theorem c4_witness :
    timeoutFire false
        { socket := 1, createdAt := 0, lastActivity := 5, pendingResponse := some 6 } 6
      = ({ socket := 1, createdAt := 0, lastActivity := 5, pendingResponse := none },
         [Effect.httpRespond 6 504 [] RespBody.gatewayTimeout]) ∧
    handleMessage "example.com" "gen" 100 { id := 1, tunnelId := some "abc" }
        [("abc", { socket := 1, createdAt := 0, lastActivity := 5, pendingResponse := none })]
        (some (.response (some 200) none (some (.text "late"))))
      = ([("abc", { socket := 1, createdAt := 0, lastActivity := 100, pendingResponse := none })],
         { id := 1, tunnelId := some "abc" }, []) := by
  constructor
  · exact c4_timeout_amended.1
      { socket := 1, createdAt := 0, lastActivity := 5, pendingResponse := some 6 } 6
      (by decide)
  · exact c4_timeout_amended.2 "example.com" "gen" 100 { id := 1, tunnelId := some "abc" }
      [("abc", { socket := 1, createdAt := 0, lastActivity := 5, pendingResponse := none })]
      "abc" { socket := 1, createdAt := 0, lastActivity := 5, pendingResponse := none }
      (some 200) none (some (.text "late"))
      (by decide) (by decide) (by decide)

/-- C5 counterexample: over a complete run — caller 1 forwarded, caller 2
    forwarded (slot overwritten), caller 1's timer fired (guard sees
    caller 2 and does nothing), the client's only response frame
    completing caller 2 (whose finish event clears caller 2's timer), and
    finally the session closing — caller 1's pending call is never
    completed by any of the three destruction routes: zero completions
    reach caller 1 (first conjunct), while caller 2 does complete
    (second conjunct), so the run is live. -/
theorem c5_counterexample :
    ¬ (c5effects.any (completesRes 1) = true) ∧
    c5effects.any (completesRes 2) = true := by
  decide

/-- C5 (amended): at-most-once completion holds for the slot's occupant:
    a response frame completes the occupant and empties the slot, after
    which its deadline timer finds the guard false and does nothing
    (first conjunct); the timer also never completes a call that is not
    the current occupant (second conjunct).  But exactly-once fails: a
    call evicted from the slot by a later concurrent request is
    completed zero times, because every completion route is guarded on
    slot occupancy (see the counterexample). -/
theorem c5_exactly_once_amended :
    (∀ (host genId : String) (now : Nat) (ws : WsConn) (tunnels : TMap) (tid : String)
        (t : Tunnel) (res : Nat) (sc : Option Nat) (hs : Option (List (String × String)))
        (body : Option JsVal) (hSent : Bool),
        ws.tunnelId = some tid →
        mapGet tunnels tid = some t →
        t.pendingResponse = some res →
        ((handleMessage host genId now ws tunnels (some (.response sc hs body))).2.2
            = [Effect.httpRespond res (respStatus sc) (filterRespHeaders hs)
                 (RespBody.fromClient (respBodyOut body))]) ∧
        timeoutFireMap hSent
            (handleMessage host genId now ws tunnels (some (.response sc hs body))).1 tid res
          = ((handleMessage host genId now ws tunnels (some (.response sc hs body))).1, [])) ∧
    (∀ (hSent : Bool) (t : Tunnel) (res res' : Nat),
        t.pendingResponse = some res' →
        res' ≠ res →
        timeoutFire hSent t res = (t, [])) := by
  constructor
  · intro host genId now ws tunnels tid t res sc hs body hSent hw hg hp
    constructor
    · simp [handleMessage, hw, hg, hp]
    · simp [handleMessage, hw, hg, hp, timeoutFireMap, mapGet_mapSet_self, timeoutFire,
        mapSet_mapSet_self]
  · intro hSent t res res' hp hne
    simp [timeoutFire, hp, hne]

/-- C5 witness: completing slot occupant 4 once, the later timer fire is
    a no-op; and the timer never completes non-occupant 9. -/
theorem c5_witness :
    ((handleMessage "example.com" "gen" 20 { id := 1, tunnelId := some "abc" }
        [("abc", { socket := 1, createdAt := 0, lastActivity := 0, pendingResponse := some 4 })]
        (some (.response none none none))).2.2
      = [Effect.httpRespond 4 200 [] (RespBody.fromClient none)]) ∧
    timeoutFireMap false
        (handleMessage "example.com" "gen" 20 { id := 1, tunnelId := some "abc" }
          [("abc", { socket := 1, createdAt := 0, lastActivity := 0, pendingResponse := some 4 })]
          (some (.response none none none))).1 "abc" 4
      = ((handleMessage "example.com" "gen" 20 { id := 1, tunnelId := some "abc" }
          [("abc", { socket := 1, createdAt := 0, lastActivity := 0, pendingResponse := some 4 })]
          (some (.response none none none))).1, []) ∧
    timeoutFire false
        { socket := 1, createdAt := 0, lastActivity := 0, pendingResponse := some 4 } 9
      = ({ socket := 1, createdAt := 0, lastActivity := 0, pendingResponse := some 4 }, []) := by
  refine ⟨?_, ?_, ?_⟩
  · exact (c5_exactly_once_amended.1 "example.com" "gen" 20 { id := 1, tunnelId := some "abc" }
      [("abc", { socket := 1, createdAt := 0, lastActivity := 0, pendingResponse := some 4 })]
      "abc" { socket := 1, createdAt := 0, lastActivity := 0, pendingResponse := some 4 }
      4 none none none false (by decide) (by decide) (by decide)).1
  · exact (c5_exactly_once_amended.1 "example.com" "gen" 20 { id := 1, tunnelId := some "abc" }
      [("abc", { socket := 1, createdAt := 0, lastActivity := 0, pendingResponse := some 4 })]
      "abc" { socket := 1, createdAt := 0, lastActivity := 0, pendingResponse := some 4 }
      4 none none none false (by decide) (by decide) (by decide)).2
  · exact c5_exactly_once_amended.2 false
      { socket := 1, createdAt := 0, lastActivity := 0, pendingResponse := some 4 } 9 4
      (by decide) (by decide)

/-- C6 counterexample: connection 5 is already registered as `abc`, and
    sends a second register frame requesting the free name `xyz`.  The
    frame is not rejected: a `registered` confirmation (not an error) is
    sent, the connection's identifier changes to `xyz`, and the registry
    now holds both `xyz` and the orphaned `abc`. -/
theorem c6_counterexample :
    c6after.2.2
      = [Effect.wsSend 5 (OutFrame.registered "xyz" "https://example.com/t/xyz" "xyz")] ∧
    c6after.2.1.tunnelId = some "xyz" ∧
    mapHas c6after.1 "xyz" = true ∧
    mapHas c6after.1 "abc" = true := by
  decide

/-- C6 (amended): sessions are not limited to one registration.  In the
    path-addressed server a second register frame naming a free
    identifier succeeds: the connection re-registers under the new id, a
    fresh entry is added, and the old entry stays behind unchanged,
    orphaned (first conjunct).  A second register naming a held
    identifier — including the session's own current name — receives an
    error frame and the connection is closed, with the registry
    unchanged (second conjunct).  In the subdomain variant a register
    frame simply overwrites the session's alias, with no rejection of
    re-registration at all (third conjunct). -/
theorem c6_reregister_amended :
    (∀ (host genId : String) (now : Nat) (ws : WsConn) (tunnels : TMap)
        (old nw : String) (tOld : Tunnel),
        ws.tunnelId = some old →
        mapGet tunnels old = some tOld →
        nw ≠ "" →
        mapHas tunnels nw = false →
        handleMessage host genId now ws tunnels (some (.register (some nw)))
          = (mapSet tunnels nw
               { socket := ws.id, createdAt := now, lastActivity := now,
                 pendingResponse := none },
             { ws with tunnelId := some nw },
             [Effect.wsSend ws.id
                (OutFrame.registered nw ("https://" ++ host ++ "/t/" ++ nw) nw)]) ∧
        mapGet (mapSet tunnels nw
               { socket := ws.id, createdAt := now, lastActivity := now,
                 pendingResponse := none }) old = some tOld) ∧
    (∀ (host genId : String) (now : Nat) (ws : WsConn) (tunnels : TMap) (s : String),
        s ≠ "" →
        mapHas tunnels s = true →
        handleMessage host genId now ws tunnels (some (.register (some s)))
          = (tunnels, ws,
             [Effect.wsSend ws.id
                (OutFrame.error ("Tunnel name " ++ s ++ " is already in use.")),
              Effect.wsClose ws.id])) ∧
    (∀ (host : String) (now : Nat) (tid : String) (wsId : Nat) (s : String)
        (tunnels : Sub.SMap) (t : Sub.STunnel),
        mapGet tunnels tid = some t →
        s ≠ "" →
        (tunnels.map (fun p => p.2)).find? (fun v => v.subdomain == some s) = none →
        Sub.register host now tid wsId (some s) tunnels
          = (mapSet tunnels tid { t with lastActivity := now, subdomain := some s },
             [Effect.wsSend wsId
                (OutFrame.registered s ("https://" ++ s ++ "." ++ host) tid)])) := by
  refine ⟨?_, ?_, ?_⟩
  · intro host genId now ws tunnels old nw tOld hw hg hnw hfree
    have hne : old ≠ nw := by
      intro e
      subst e
      rw [mapHas, hg] at hfree
      simp at hfree
    constructor
    · simp [handleMessage, hnw, hfree]
    · rw [mapGet_mapSet_ne tunnels nw old _ hne]
      exact hg
  · intro host genId now ws tunnels s hs hh
    simp [handleMessage, hs, hh]
  · intro host now tid wsId s tunnels t hg hs hfind
    simp [Sub.register, hg, hs, hfind]

/-- C6 witness: a registered connection re-registers under a free name
    (old entry orphaned), its own name is rejected with close, and the
    subdomain variant overwrites an alias. -/
theorem c6_witness :
    (handleMessage "example.com" "gen" 50 { id := 5, tunnelId := some "abc" }
        [("abc", { socket := 5, createdAt := 0, lastActivity := 0, pendingResponse := none })]
        (some (.register (some "xyz")))
      = ([("abc", { socket := 5, createdAt := 0, lastActivity := 0, pendingResponse := none }),
          ("xyz", { socket := 5, createdAt := 50, lastActivity := 50, pendingResponse := none })],
         { id := 5, tunnelId := some "xyz" },
         [Effect.wsSend 5 (OutFrame.registered "xyz" "https://example.com/t/xyz" "xyz")]) ∧
      mapGet (([("abc", { socket := 5, createdAt := 0, lastActivity := 0,
                          pendingResponse := none }),
                ("xyz", { socket := 5, createdAt := 50, lastActivity := 50,
                          pendingResponse := none })] : TMap)) "abc"
        = some { socket := 5, createdAt := 0, lastActivity := 0, pendingResponse := none }) ∧
    handleMessage "example.com" "gen" 51 { id := 5, tunnelId := some "abc" }
        [("abc", { socket := 5, createdAt := 0, lastActivity := 0, pendingResponse := none })]
        (some (.register (some "abc")))
      = ([("abc", { socket := 5, createdAt := 0, lastActivity := 0, pendingResponse := none })],
         { id := 5, tunnelId := some "abc" },
         [Effect.wsSend 5 (OutFrame.error "Tunnel name abc is already in use."),
          Effect.wsClose 5]) ∧
    Sub.register "example.com" 60 "uuid-1" 1 (some "fresh")
        [("uuid-1", { socket := 1, subdomain := some "abc", createdAt := 0, lastActivity := 0,
                      pendingResponse := none })]
      = ([("uuid-1", { socket := 1, subdomain := some "fresh", createdAt := 0,
                       lastActivity := 60, pendingResponse := none })],
         [Effect.wsSend 1 (OutFrame.registered "fresh" "https://fresh.example.com" "uuid-1")]) := by
  refine ⟨?_, ?_, ?_⟩
  · exact c6_reregister_amended.1 "example.com" "gen" 50 { id := 5, tunnelId := some "abc" }
      [("abc", { socket := 5, createdAt := 0, lastActivity := 0, pendingResponse := none })]
      "abc" "xyz" { socket := 5, createdAt := 0, lastActivity := 0, pendingResponse := none }
      (by decide) (by decide) (by decide) (by decide)
  · exact c6_reregister_amended.2.1 "example.com" "gen" 51 { id := 5, tunnelId := some "abc" }
      [("abc", { socket := 5, createdAt := 0, lastActivity := 0, pendingResponse := none })]
      "abc" (by decide) (by decide)
  · exact c6_reregister_amended.2.2 "example.com" 60 "uuid-1" 1 "fresh"
      [("uuid-1", { socket := 1, subdomain := some "abc", createdAt := 0, lastActivity := 0,
                    pendingResponse := none })]
      { socket := 1, subdomain := some "abc", createdAt := 0, lastActivity := 0,
        pendingResponse := none }
      (by decide) (by decide) (by decide)

/-- C8 counterexample: a request to `/t/abc/echo` carrying a `host` and a
    `connection` header is forwarded with its header set verbatim — the
    request frame still contains both the host-identifying and the
    hop-by-hop header (second conjunct), so no header filtering happens
    before forwarding. -/
theorem c8_counterexample :
    c8effs
      = [Effect.wsSend 1
           (OutFrame.request "GET" "/echo"
             [("host", "relay.example.com"), ("connection", "keep-alive")] none 99),
         Effect.timerStart 3 30000] ∧
    (c8effs.any (fun e =>
        match e with
        | Effect.wsSend _ (OutFrame.request _ _ hs _ _) =>
            hs.any (fun p => p.1 == "host") && hs.any (fun p => p.1 == "connection")
        | _ => false) = true) := by
  decide

/-- C8 (amended): the request frame of a successfully forwarded call
    carries the request's method, the forwarded path with the `/t/<id>`
    marker stripped, and the request's header set forwarded unmodified —
    no hop-by-hop or host-identifying headers are removed. -/
theorem c8_forward_amended :
    ∀ (rs : Nat → RState) (now : Nat) (method : String) (hs : List (String × String))
      (body : Option ReqBody) (res : Nat) (tunnels : TMap) (tid rem : String) (t : Tunnel),
      tid.toList ≠ [] →
      tid.toList.all isIdChar = true →
      rem.toList.head? = some '/' →
      mapGet tunnels tid = some t →
      rs t.socket = RState.OPEN →
      handleRequest rs true now
          { originalUrl := "/t/" ++ tid ++ rem, method := method, headers := hs, body := body }
          res tunnels
        = (mapSet tunnels tid { t with pendingResponse := some res },
           [Effect.wsSend t.socket (OutFrame.request method rem hs (reqBodyOut body) now),
            Effect.timerStart res 30000]) := by
  intro rs now method hs body res tunnels tid rem t h1 h2 h3 hg ho
  have hm := matchTunnelUrl_strip tid rem h1 h2 h3
  simp [handleRequest, hm, hg, ho]

/-- C8 witness: forwarding `/t/abc/echo` sends a frame with method GET,
    stripped path `/echo`, and the caller's headers untouched. -/
theorem c8_witness :
    handleRequest allOpen true 99
        { originalUrl := "/t/" ++ "abc" ++ "/echo", method := "GET",
          headers := [("host", "relay.example.com"), ("connection", "keep-alive")],
          body := none } 3
        [("abc", { socket := 1, createdAt := 0, lastActivity := 0, pendingResponse := none })]
      = (mapSet
           [("abc", { socket := 1, createdAt := 0, lastActivity := 0,
                      pendingResponse := none })] "abc"
           { socket := 1, createdAt := 0, lastActivity := 0, pendingResponse := some 3 },
         [Effect.wsSend 1
            (OutFrame.request "GET" "/echo"
              [("host", "relay.example.com"), ("connection", "keep-alive")] none 99),
          Effect.timerStart 3 30000]) := by
  exact c8_forward_amended allOpen 99 "GET"
    [("host", "relay.example.com"), ("connection", "keep-alive")] none 3
    [("abc", { socket := 1, createdAt := 0, lastActivity := 0, pendingResponse := none })]
    "abc" "/echo" { socket := 1, createdAt := 0, lastActivity := 0, pendingResponse := none }
    (by decide) (by decide) (by decide) (by decide) (by decide)

/-- C10 witness: the three early-return shapes at concrete inputs in the
    path-addressed server, plus the dashboard-host 404 of the subdomain
    variant. -/
theorem c10_witness :
    handleRequest allOpen true 0
        { originalUrl := "/nope", method := "GET", headers := [], body := none } 4 c1tunnels
      = (c1tunnels, [Effect.httpRespond 4 404 [] RespBody.notValidTunnelUrl]) ∧
    handleRequest allOpen true 0
        { originalUrl := "/t/zzz/x", method := "GET", headers := [], body := none } 4 c1tunnels
      = (c1tunnels,
         [Effect.httpRespond 4 404 [] (RespBody.tunnelNotFound "zzz" ["abc"])]) ∧
    handleRequest (fun _ => RState.CLOSING) true 0
        { originalUrl := "/t/abc/x", method := "GET", headers := [], body := none } 4 c1tunnels
      = (c1tunnels, [Effect.httpRespond 4 503 [] RespBody.tunnelNotConnected]) ∧
    Sub.handleRequestSub allOpen true 0 "example" "/x" "GET" [] none 4 []
      = ([], [Effect.httpRespond 4 404 [] RespBody.notFound]) := by
  refine ⟨?_, ?_, ?_, ?_⟩
  · exact c10_early_returns_pure.1 allOpen true 0
      { originalUrl := "/nope", method := "GET", headers := [], body := none } 4 c1tunnels
      (by decide)
  · have h := c10_early_returns_pure.2.1 allOpen true 0
      { originalUrl := "/t/zzz/x", method := "GET", headers := [], body := none } 4 c1tunnels
      "zzz" "/x" (by decide) (by decide)
    simpa [c1tunnels] using h
  · exact c10_early_returns_pure.2.2.1 (fun _ => RState.CLOSING) true 0
      { originalUrl := "/t/abc/x", method := "GET", headers := [], body := none } 4 c1tunnels
      "abc" "/x" { socket := 1, createdAt := 0, lastActivity := 0, pendingResponse := none }
      (by decide) (by decide) (by decide)
  · exact c10_early_returns_pure.2.2.2.1 allOpen true 0 "example" "/x" "GET" [] none 4 []
      (by decide)

end OpiTunnel
